import Mathlib

/-!
Verification of the vn-stock-copilot analysis core against its specification.

The Python source is shallowly embedded in Lean 4:
  * pandas Series of close prices become `List ℚ` (chronological order);
    real-number arithmetic on Python floats is modelled exactly on `ℚ`;
  * pandas NaN propagation (rolling windows with insufficient data,
    division by a zero that was replaced by NaN) is modelled with `Option ℚ`,
    `none` playing the role of NaN;
  * fallible code returns `Option` / `Except`;
  * the Supabase tables become lists of rows, inserts append.
Each definition is annotated with the source function it embeds.
-/

namespace VnStockCopilot

unseal Rat.add Rat.mul Rat.sub Rat.inv Rat.ofScientific

/-- Python `round(x)` / `round(x, 0)`: round half to even (banker's rounding),
as used by `round(...)` in `_extract_strategy_from_report` and
`calculate_technical_indicators`. -/
def pyRound (q : ℚ) : ℤ :=
  if q - ⌊q⌋ < 1 / 2 then ⌊q⌋
  else if 1 / 2 < q - ⌊q⌋ then ⌊q⌋ + 1
  else if ⌊q⌋ % 2 = 0 then ⌊q⌋ else ⌊q⌋ + 1

/-- Python `round(x, 0)` returns a float with an integral value. -/
def round0 (q : ℚ) : ℚ := (pyRound q : ℚ)

/-- Python `round(x, 2)`: round half to even at two decimal places. -/
def round2 (q : ℚ) : ℚ := (pyRound (q * 100) : ℚ) / 100

/-- The last `k` elements of a list (the trailing window of a pandas
`rolling(k)` at the final row). -/
def lastN (k : ℕ) (l : List ℚ) : List ℚ := l.drop (l.length - k)

/-- Consecutive differences, modelling `series.diff()` without its leading
NaN entry: `diffs [c0, c1, ..., cn] = [c1 - c0, ..., cn - c(n-1)]`. -/
def diffs : List ℚ → List ℚ
  | [] => []
  | [_] => []
  | a :: b :: t => (b - a) :: diffs (b :: t)

/-! ## Indicator Engine — `src/services/vnstock_service.py` -/

/-- The 14 trailing deltas feeding the final row of the RSI computation in
`_compute_rsi` (window=14, min_periods=14). -/
def rsiWindow (close : List ℚ) : List ℚ := lastN 14 (diffs close)

/-- The rolling mean of `delta.clip(lower=0)` at the final row
(`avg_gain` in `_compute_rsi`). -/
def avgGainLast (close : List ℚ) : ℚ :=
  ((rsiWindow close).map (fun d => max d 0)).sum / 14

/-- The rolling mean of `-delta.clip(upper=0)` at the final row
(`avg_loss` in `_compute_rsi`). -/
def avgLossLast (close : List ℚ) : ℚ :=
  ((rsiWindow close).map (fun d => max (-d) 0)).sum / 14

/-- Final-row value of `_compute_rsi`.  `none` is NaN: the rolling means
need 14 valid deltas (so at least 15 close rows, since `diff()` makes the
first entry NaN), and `avg_loss.replace(0, np.nan)` turns a zero average
loss into NaN, which propagates through `rs` and `rsi`. -/
def compute_rsi_last (close : List ℚ) : Option ℚ :=
  if 15 ≤ close.length then
    if avgLossLast close = 0 then none
    else some (100 - 100 / (1 + avgGainLast close / avgLossLast close))
  else none

/-- Final-row simple moving average over `n` rows (`close.rolling(n).mean()`
at `iloc[-1]`); `none` is the NaN produced when fewer than `n` rows exist. -/
def rollingMeanLast (n : ℕ) (close : List ℚ) : Option ℚ :=
  if n ≤ close.length then some ((lastN n close).sum / n) else none

/-- The `latest_ma50`-style defaulting in `calculate_technical_indicators`:
`ma.iloc[-1] if not np.isnan(ma.iloc[-1]) else 0`. -/
def latestMaOr0 (n : ℕ) (close : List ℚ) : ℚ := (rollingMeanLast n close).getD 0

/-- Output record of `calculate_technical_indicators` restricted to the
fields the claims reference (the display-only `ma_alignment`,
`support_zone` and `resistance_zone` strings are not modelled). -/
structure TechIndicators where
  trend : String
  rsi : ℚ
  ma50 : ℚ
  ma200 : ℚ
  latest_close : ℚ
deriving DecidableEq

/-- Embedding of `calculate_technical_indicators` on the close-price column:
MA50/MA200 defaulted to 0 when NaN, RSI defaulted to 50 when NaN, then the
trend classification, with the numeric outputs rounded to 2 decimals. -/
def calculate_technical_indicators (close : List ℚ) : TechIndicators :=
  let latest_close := close.getLastD 0
  let latest_ma50 := latestMaOr0 50 close
  let latest_ma200 := latestMaOr0 200 close
  let latest_rsi := (compute_rsi_last close).getD 50
  let trend :=
    if latest_ma200 < latest_ma50 ∧ latest_ma50 < latest_close then "UP"
    else if latest_ma50 < latest_ma200 ∧ latest_close < latest_ma50 then "DOWN"
    else "SIDEWAYS"
  ⟨trend, round2 latest_rsi, round2 latest_ma50, round2 latest_ma200, round2 latest_close⟩

/-! ## Typed records — `src/models/state.py` -/

/-- Pydantic model `FinancialAnalysis`. -/
structure FinancialAnalysis where
  revenue_growth : ℚ
  profit_growth : ℚ
  roe : ℚ
  pe_ratio : ℚ
  debt_to_equity : ℚ
  is_healthy : Bool
deriving DecidableEq

/-- Pydantic model `TechnicalSignals`. -/
structure TechnicalSignals where
  trend : String
  rsi : ℚ
  ma_alignment : String
  support_zone : String
  resistance_zone : String
deriving DecidableEq

/-- Pydantic model `InvestmentStrategy`. -/
structure InvestmentStrategy where
  thesis_summary : String
  entry_price_range : List ℚ
  target_price : ℚ
  stop_loss : ℚ
  risk_level : String
deriving DecidableEq

/-! ## JSON values and `json.loads` — used by `analyst_node` in
`src/agents/nodes.py` -/

/-- A parsed JSON value.  Numbers are exact rationals (the non-finite float
literals NaN/Infinity that Python additionally accepts are outside this
embedding and not modelled). -/
inductive Json where
  | null : Json
  | bool : Bool → Json
  | num : ℚ → Json
  | str : String → Json
  | arr : List Json → Json
  | obj : List (String × Json) → Json

/-- JSON whitespace accepted between tokens. -/
def jsonWs (c : Char) : Bool := c = ' ' || c = '\t' || c = '\n' || c = '\r'

/-- Drop leading JSON whitespace. -/
def skipJsonWs : List Char → List Char
  | [] => []
  | c :: cs => if jsonWs c then skipJsonWs cs else c :: cs

/-- Hexadecimal digit value, for `\\uXXXX` escapes. -/
def hexVal (c : Char) : Option ℕ :=
  if c.isDigit then some (c.toNat - 48)
  else if 97 ≤ c.toNat ∧ c.toNat ≤ 102 then some (c.toNat - 87)
  else if 65 ≤ c.toNat ∧ c.toNat ≤ 70 then some (c.toNat - 55)
  else none

/-- Parse the body of a JSON string after the opening quote, returning the
decoded characters and the input after the closing quote.  Unescaped
control characters are rejected (json.loads runs in strict mode);
surrogate-pair combination is not modelled. -/
def parseStringBody : List Char → Option (List Char × List Char)
  | [] => none
  | '"' :: rest => some ([], rest)
  | '\\' :: 'u' :: a :: b :: c :: d :: rest => do
    let ha ← hexVal a
    let hb ← hexVal b
    let hc ← hexVal c
    let hd ← hexVal d
    let p ← parseStringBody rest
    some (Char.ofNat (((ha * 16 + hb) * 16 + hc) * 16 + hd) :: p.1, p.2)
  | '\\' :: e :: rest => do
    let ch ← match e with
      | '"' => some '"'
      | '\\' => some '\\'
      | '/' => some '/'
      | 'b' => some (Char.ofNat 8)
      | 'f' => some (Char.ofNat 12)
      | 'n' => some '\n'
      | 'r' => some '\r'
      | 't' => some '\t'
      | _ => none
    let p ← parseStringBody rest
    some (ch :: p.1, p.2)
  | c :: rest =>
    if c.toNat < 32 then none
    else do
      let p ← parseStringBody rest
      some (c :: p.1, p.2)

/-- Digit characters to their decimal value. -/
def digitsToNat (ds : List Char) : ℕ :=
  ds.foldl (fun n c => n * 10 + (c.toNat - 48)) 0

/-- Parse the optional fraction part `.ddd` of a JSON number, returning the
fraction digits and the rest. -/
def parseFrac : List Char → Option (List Char × List Char)
  | '.' :: r =>
    let ds := r.takeWhile Char.isDigit
    if ds = [] then none else some (ds, r.dropWhile Char.isDigit)
  | s => some ([], s)

/-- Parse the optional exponent part `e±ddd` of a JSON number, returning
(exponent is negative, exponent digits, rest). -/
def parseExp : List Char → Option (Bool × List Char × List Char)
  | [] => some (false, [], [])
  | c :: r =>
    if c = 'e' ∨ c = 'E' then
      let (en, r1) : Bool × List Char := match r with
        | '+' :: r2 => (false, r2)
        | '-' :: r2 => (true, r2)
        | _ => (false, r)
      let ds := r1.takeWhile Char.isDigit
      if ds = [] then none else some (en, ds, r1.dropWhile Char.isDigit)
    else some (false, [], c :: r)

/-- Parse a JSON number (grammar `-?(0|[1-9]\d*)(\.\d+)?([eE][-+]?\d+)?`)
into its exact rational value.  The value is assembled with `Rat.divInt`
over integer arithmetic. -/
def parseNumber (s : List Char) : Option (ℚ × List Char) := do
  let (neg, s1) : Bool × List Char := match s with
    | '-' :: r => (true, r)
    | _ => (false, s)
  let (ids, s2) ← match s1 with
    | '0' :: r => some (['0'], r)
    | c :: _ => if c.isDigit then some (s1.takeWhile Char.isDigit, s1.dropWhile Char.isDigit) else none
    | [] => none
  let (fds, s3) ← parseFrac s2
  let (en, eds, s4) ← parseExp s3
  let sign : ℤ := if neg then -1 else 1
  let mant : ℤ := sign * (digitsToNat ids * Nat.pow 10 fds.length + digitsToNat fds)
  let e := digitsToNat eds
  let v : ℚ :=
    if en then Rat.divInt mant (Int.pow 10 (fds.length + e))
    else Rat.divInt (mant * Int.pow 10 e) (Int.pow 10 fds.length)
  some (v, s4)

mutual

/-- Parse one JSON value; `fuel` bounds the recursion depth and is chosen
large enough at the top level that it cannot run out. -/
def parseVal : ℕ → List Char → Option (Json × List Char)
  | 0, _ => none
  | fuel + 1, s =>
    match skipJsonWs s with
    | '\x7b' :: rest => (parseMembers fuel true rest).map fun p => (Json.obj p.1, p.2)
    | '[' :: rest => (parseElems fuel true rest).map fun p => (Json.arr p.1, p.2)
    | '"' :: rest => (parseStringBody rest).map fun p => (Json.str (String.mk p.1), p.2)
    | 't' :: 'r' :: 'u' :: 'e' :: rest => some (Json.bool true, rest)
    | 'f' :: 'a' :: 'l' :: 's' :: 'e' :: rest => some (Json.bool false, rest)
    | 'n' :: 'u' :: 'l' :: 'l' :: rest => some (Json.null, rest)
    | s1 => (parseNumber s1).map fun p => (Json.num p.1, p.2)

/-- Parse the members of a JSON object after the opening brace; `first` is
true before the first member (only then may the object close immediately,
so trailing commas are rejected). -/
def parseMembers : ℕ → Bool → List Char → Option (List (String × Json) × List Char)
  | 0, _, _ => none
  | fuel + 1, first, s =>
    match skipJsonWs s with
    | '\x7d' :: rest => if first then some ([], rest) else none
    | '"' :: rest => do
      let k ← parseStringBody rest
      match skipJsonWs k.2 with
      | ':' :: r2 => do
        let v ← parseVal fuel r2
        match skipJsonWs v.2 with
        | ',' :: r4 => do
          let ms ← parseMembers fuel false r4
          some ((String.mk k.1, v.1) :: ms.1, ms.2)
        | '\x7d' :: r4 => some ([(String.mk k.1, v.1)], r4)
        | _ => none
      | _ => none
    | _ => none

/-- Parse the elements of a JSON array after the opening bracket. -/
def parseElems : ℕ → Bool → List Char → Option (List Json × List Char)
  | 0, _, _ => none
  | fuel + 1, first, s =>
    match skipJsonWs s with
    | ']' :: rest => if first then some ([], rest) else none
    | s1 => do
      let v ← parseVal fuel s1
      match skipJsonWs v.2 with
      | ',' :: r2 => do
        let vs ← parseElems fuel false r2
        some (v.1 :: vs.1, vs.2)
      | ']' :: r2 => some ([v.1], r2)
      | _ => none

end

/-- Embedding of `json.loads`: parse one JSON value and require only
whitespace after it; `none` models a raised `JSONDecodeError`. -/
def json_loads (s : List Char) : Option Json :=
  match parseVal (2 * s.length + 2) s with
  | some (v, rest) => if skipJsonWs rest = [] then some v else none
  | none => none

/-- Lookup in a parsed JSON object, modelling Python dict construction
from duplicate keys (the last occurrence wins) followed by `dict.get`. -/
def dict_get (kvs : List (String × Json)) (k : String) : Option Json :=
  ((kvs.filter fun kv => kv.1 == k).getLast?).map Prod.snd

/-! ## Structured-Output Parser — `analyst_node` in `src/agents/nodes.py` -/

/-- Python `str.split(sep)` on character lists: split on every
non-overlapping occurrence of `sep`, left to right.  `fuel` starts above
the input length so it cannot run out for a non-empty separator. -/
def pySplitGo (sep : List Char) : ℕ → List Char → List Char → List (List Char)
  | 0, acc, s => [acc.reverse ++ s]
  | fuel + 1, acc, s =>
    if sep.isPrefixOf s then acc.reverse :: pySplitGo sep fuel [] (s.drop sep.length)
    else match s with
      | [] => [acc.reverse]
      | c :: rest => pySplitGo sep fuel (c :: acc) rest

/-- Python `s.split(sep)` for a non-empty separator. -/
def pySplit (s sep : List Char) : List (List Char) :=
  pySplitGo sep (s.length + 1) [] s

/-- Python `str.strip()` whitespace (the ASCII cases). -/
def pyIsSpace (c : Char) : Bool :=
  c = ' ' || c = '\t' || c = '\n' || c = '\r' || c = '\x0b' || c = '\x0c'

/-- Python `s.strip()`. -/
def pyStrip (s : List Char) : List Char :=
  ((s.dropWhile pyIsSpace).reverse.dropWhile pyIsSpace).reverse

/-- The fenced-block extraction in `analyst_node`: prefer the text between
the first "```json" and the next "```", fall back to the text between the
first pair of "```", fall back to the whole text. -/
def extract_json_block (content : List Char) : List Char :=
  let fj := "```json".toList
  let f := "```".toList
  let parts := pySplit content fj
  if 2 ≤ parts.length then
    pyStrip ((pySplit (parts.getD 1 []) f).getD 0 [])
  else
    let parts2 := pySplit content f
    if 2 ≤ parts2.length then
      pyStrip ((pySplit (parts2.getD 1 []) f).getD 0 [])
    else content

/-- Field extraction `data.get(key, default)` for a float-typed pydantic
field: an absent key takes the declared default; a JSON number is used as
is; any other shape raises a ValidationError, modelled as `none`.
(Pydantic lax-mode coercion of numeric strings is not modelled; no oracle
field in the claims uses it.) -/
def getFloatField (m : List (String × Json)) (k : String) (dflt : ℚ) : Option ℚ :=
  match dict_get m k with
  | none => some dflt
  | some (Json.num q) => some q
  | some _ => none

/-- Field extraction for a bool-typed pydantic field. -/
def getBoolField (m : List (String × Json)) (k : String) (dflt : Bool) : Option Bool :=
  match dict_get m k with
  | none => some dflt
  | some (Json.bool b) => some b
  | some _ => none

/-- Field extraction for a str-typed pydantic field. -/
def getStrField (m : List (String × Json)) (k : String) (dflt : String) : Option String :=
  match dict_get m k with
  | none => some dflt
  | some (Json.str s) => some s
  | some _ => none

/-- Building `FinancialAnalysis(revenue_growth=fa_data.get("revenue_growth", 0), ...)`. -/
def buildFinancialAnalysis (fa_data : List (String × Json)) : Option FinancialAnalysis := do
  let revenue_growth ← getFloatField fa_data "revenue_growth" 0
  let profit_growth ← getFloatField fa_data "profit_growth" 0
  let roe ← getFloatField fa_data "roe" 0
  let pe_ratio ← getFloatField fa_data "pe_ratio" 0
  let debt_to_equity ← getFloatField fa_data "debt_to_equity" 0
  let is_healthy ← getBoolField fa_data "is_healthy" false
  some ⟨revenue_growth, profit_growth, roe, pe_ratio, debt_to_equity, is_healthy⟩

/-- Building `TechnicalSignals(trend=ta_data.get("trend", "SIDEWAYS"), ...)`. -/
def buildTechnicalSignals (ta_data : List (String × Json)) : Option TechnicalSignals := do
  let trend ← getStrField ta_data "trend" "SIDEWAYS"
  let rsi ← getFloatField ta_data "rsi" 50
  let ma_alignment ← getStrField ta_data "ma_alignment" "N/A"
  let support_zone ← getStrField ta_data "support_zone" "N/A"
  let resistance_zone ← getStrField ta_data "resistance_zone" "N/A"
  some ⟨trend, rsi, ma_alignment, support_zone, resistance_zone⟩

/-- The whole structured-parsing attempt inside the `try` of
`analyst_node`: strip, extract the fenced block, `json.loads`, take the
two top-level sections (`dict.get(key, {})`, requiring dict shape), and
build both pydantic records.  `none` models any exception on the way. -/
def analyst_structured (response_content : String) : Option (FinancialAnalysis × TechnicalSignals) := do
  let content := pyStrip response_content.toList
  let inner := extract_json_block content
  let parsed ← json_loads inner
  match parsed with
  | Json.obj kvs =>
    let fa_val := (dict_get kvs "financial_analysis").getD (Json.obj [])
    let ta_val := (dict_get kvs "technical_signals").getD (Json.obj [])
    match fa_val, ta_val with
    | Json.obj fam, Json.obj tam => do
      let fa ← buildFinancialAnalysis fam
      let ta ← buildTechnicalSignals tam
      some (fa, ta)
    | _, _ => none
  | _ => none

/-- Embedding of the parsing part of `analyst_node`: on success both
structured records are returned; on any exception the `except` branch
returns both as `None`. -/
def analyst_parse (response_content : String) :
    Option FinancialAnalysis × Option TechnicalSignals :=
  match analyst_structured response_content with
  | some (fa, ta) => (some fa, some ta)
  | none => (none, none)

/-! ## Strategy Synthesizer — `_extract_strategy_from_report` in
`src/agents/nodes.py` -/

/-- Embedding of `_extract_strategy_from_report`.  The Python decimal
literals 0.92, 0.98, 1.20, 0.90 are modelled as exact rationals, and
`round(x, 0)` as `round0`.  The `try/except` wrapper around this pure
computation can never fire, so the `None` branch is not modelled. -/
def _extract_strategy_from_report (report : String)
    (financial_analysis : Option FinancialAnalysis)
    (technical_signals : Option TechnicalSignals)
    (current_price : ℚ) : InvestmentStrategy :=
  let thesis_summary := if report = "" then "" else report.take 200
  let entry_low := current_price * (92 / 100)
  let entry_high := current_price * (98 / 100)
  let target := current_price * (120 / 100)
  let stop := current_price * (90 / 100)
  let fa_healthy : Bool := match financial_analysis with
    | some fa => fa.is_healthy
    | none => false
  let trend_up : Bool := match technical_signals with
    | some ta => ta.trend == "UP"
    | none => false
  let trend_down : Bool := match technical_signals with
    | some ta => ta.trend == "DOWN"
    | none => false
  let risk :=
    if fa_healthy && trend_up then "LOW"
    else if trend_down then "HIGH"
    else "MEDIUM"
  ⟨thesis_summary, [round0 entry_low, round0 entry_high], round0 target, round0 stop, risk⟩

/-! ## Follow-up Decision Engine — `_process_symbol` in `src/worker.py` -/

/-- Thesis threshold fields as read back from the `investment_theses` table
by the worker; `none` models an absent / NULL field. -/
structure ThesisThresholds where
  stop_loss_price : Option ℚ
  entry_zone_min : Option ℚ
  entry_zone_max : Option ℚ
  target_price : Option ℚ
deriving DecidableEq

/-- Python `value or 0` applied to an optional float: `None` and `0` are
falsy and both become `0`. -/
def pyOrZero (v : Option ℚ) : ℚ :=
  match v with
  | none => 0
  | some x => if x = 0 then 0 else x

/-- Python `value or float("inf")` applied to an optional float: `None`
and `0` become `+inf`.  The result is an extended value: `none` here
represents `+inf` (which is truthy in Python). -/
def pyOrInf (v : Option ℚ) : Option ℚ :=
  match v with
  | none => none
  | some x => if x = 0 then none else some x

/-- Python truthiness of an extended float (`+inf` is truthy). -/
def infTruthy : Option ℚ → Bool
  | none => true
  | some x => x != 0

/-- Comparison `c <= v` against an extended float (`c <= +inf` is true). -/
def leInfB (c : ℚ) : Option ℚ → Bool
  | none => true
  | some x => c ≤ x

/-- Comparison `c >= v` against an extended float (`c >= +inf` is false
for every finite `c`). -/
def geInfB (c : ℚ) : Option ℚ → Bool
  | none => false
  | some x => x ≤ c

/-- The decision tree of `_process_symbol` (worker.py, step 3): the action
signal as a function of the stored thesis and the day's close price. -/
def followup_signal (thesis : Option ThesisThresholds) (close_price : ℚ) : String :=
  match thesis with
  | none => "HOLD"
  | some t =>
    let stop_loss := pyOrZero t.stop_loss_price
    let entry_min := pyOrZero t.entry_zone_min
    let entry_max := pyOrInf t.entry_zone_max
    let target := pyOrInf t.target_price
    if stop_loss ≠ 0 ∧ close_price ≤ stop_loss then "SELL"
    else if entry_min ≠ 0 ∧ infTruthy entry_max
        ∧ entry_min ≤ close_price ∧ leInfB close_price entry_max then "BUY_MORE"
    else if infTruthy target ∧ geInfB close_price target then "SELL"
    else "HOLD"

/-- The decision rules exactly as claim C2 words them: rule 2 requires both
entry bounds to be set, rule 1 requires `stop_loss > 0`, rule 3 requires a
finite (present) target.  Written from the claim, for comparison with
`followup_signal` (which is written from the code). -/
def followup_signal_claimed (thesis : Option ThesisThresholds) (close_price : ℚ) : String :=
  match thesis with
  | none => "HOLD"
  | some t =>
    let rule1 : Bool := match t.stop_loss_price with
      | some s => decide (0 < s) && decide (close_price ≤ s)
      | none => false
    let rule2 : Bool := match t.entry_zone_min, t.entry_zone_max with
      | some a, some b => decide (a ≤ close_price) && decide (close_price ≤ b)
      | _, _ => false
    let rule3 : Bool := match t.target_price with
      | some g => decide (g ≤ close_price)
      | none => false
    if rule1 then "SELL"
    else if rule2 then "BUY_MORE"
    else if rule3 then "SELL"
    else "HOLD"

/-- The amended reading of C2, matching the code: rule 2 only requires a
set, non-zero `entry_zone_min`; an absent or zero `entry_zone_max` becomes
`+inf`, so the upper-bound check is vacuous.  Rule 1 requires a non-zero
stop-loss, rule 3 a set, non-zero target. -/
def followup_signal_amended (thesis : Option ThesisThresholds) (close_price : ℚ) : String :=
  match thesis with
  | none => "HOLD"
  | some t =>
    let rule1 : Bool := match t.stop_loss_price with
      | some s => decide (s ≠ 0) && decide (close_price ≤ s)
      | none => false
    let rule2 : Bool :=
      (match t.entry_zone_min with
        | some a => decide (a ≠ 0) && decide (a ≤ close_price)
        | none => false)
      && (match t.entry_zone_max with
        | some b => decide (b = 0) || decide (close_price ≤ b)
        | none => true)
    let rule3 : Bool := match t.target_price with
      | some g => decide (g ≠ 0) && decide (g ≤ close_price)
      | none => false
    if rule1 then "SELL"
    else if rule2 then "BUY_MORE"
    else if rule3 then "SELL"
    else "HOLD"

/-- Market data returned by `get_current_price` for one symbol. -/
structure PriceInfo where
  close : ℚ
  volume : ℤ
  change_percent : ℚ
deriving DecidableEq

/-- Embedding of `_process_symbol`: the per-ticker report section.  An
error dict from `get_current_price` is modelled as `Except.error`; the
numeric display formatting, emoji choice, AI commentary and snapshot
persistence (both wrapped in their own try/except and unable to change the
returned text beyond the abstracted formatting) are not modelled. -/
def _process_symbol (symbol : String) (price_info : Except String PriceInfo)
    (thesis : Option ThesisThresholds) : String :=
  match price_info with
  | Except.error e => "⚠️ *" ++ symbol ++ "*: Không lấy được dữ liệu giá – " ++ e
  | Except.ok p =>
    let signal := followup_signal thesis p.close
    "*" ++ symbol ++ "*\n├ Tín hiệu: *" ++ signal ++ "*"

/-- Embedding of the per-symbol loop of `daily_followup_job`: `gather`
models everything `_process_symbol` pulls for one symbol (an
`Except.error` models an exception escaping `_process_symbol`, caught by
the loop's `try/except`, which turns it into an error line for that symbol
and continues with the next one). -/
def daily_followup_job (watchlist : List String)
    (gather : String → Except String (Except String PriceInfo × Option ThesisThresholds)) :
    List String :=
  watchlist.map fun symbol =>
    match gather symbol with
    | Except.ok (price_info, thesis) => _process_symbol symbol price_info thesis
    | Except.error e => "❌ " ++ symbol ++ ": Lỗi – " ++ e

/-- A concrete three-ticker watchlist for claim C9. -/
def watchlist3 : List String := ["AAA", "BBB", "CCC"]

/-- A concrete environment for claim C9 in which the data fetch of the
second ticker fails and the other two succeed. -/
def gather3 : String → Except String (Except String PriceInfo × Option ThesisThresholds) :=
  fun symbol =>
    if symbol = "BBB" then Except.ok (Except.error "timeout", none)
    else Except.ok (Except.ok ⟨100, 1000, 0⟩, none)

/-! ## Persistent store — `src/database/crud.py` -/

/-- Python `symbol.upper()` (the ASCII case mapping used for ticker
symbols), computed on the character list so that it evaluates by
reduction. -/
def pyUpper (s : String) : String := String.mk (s.data.map Char.toUpper)

/-- A row of the `investment_theses` table.  `last_updated` is the
`datetime.utcnow().isoformat()` timestamp, modelled as a natural number. -/
structure ThesisRow where
  symbol : String
  thesis_content : String
  intrinsic_value : ℚ
  target_price : ℚ
  stop_loss_price : ℚ
  entry_zone_min : ℚ
  entry_zone_max : ℚ
  sentiment_score : ℚ
  last_updated : ℕ
deriving DecidableEq

/-- Embedding of `upsert_thesis`: despite its name it performs a plain
`insert`, appending a new row; the table is modelled as the list of its
rows in insertion order.  Returns the new table state. -/
def upsert_thesis (store : List ThesisRow) (symbol thesis_content : String)
    (intrinsic_value target_price stop_loss_price entry_zone_min entry_zone_max
      sentiment_score : ℚ) (now : ℕ) : List ThesisRow :=
  store ++ [{ symbol := pyUpper symbol
              thesis_content := thesis_content
              intrinsic_value := intrinsic_value
              target_price := target_price
              stop_loss_price := stop_loss_price
              entry_zone_min := entry_zone_min
              entry_zone_max := entry_zone_max
              sentiment_score := sentiment_score
              last_updated := now }]

/-- One step of selecting the row with the greatest `last_updated`
(the `order by last_updated desc limit 1` of `get_latest_thesis`). -/
def latest_step (acc : Option ThesisRow) (r : ThesisRow) : Option ThesisRow :=
  match acc with
  | none => some r
  | some b => if b.last_updated < r.last_updated then some r else some b

/-- Embedding of `get_latest_thesis`: filter by the uppercased symbol,
order by `last_updated` descending, limit 1.  On equal timestamps the
database order is unspecified; this model keeps the earlier row. -/
def get_latest_thesis (store : List ThesisRow) (symbol : String) : Option ThesisRow :=
  (store.filter fun r => r.symbol == pyUpper symbol).foldl latest_step none

/-- A row of the `daily_snapshots` table; `date` is modelled as an ordinal
day number. -/
structure SnapshotRow where
  symbol : String
  date : ℕ
  close_price : ℚ
  volume : ℤ
  change_percent : ℚ
  ai_commentary : String
  action_signal : String
deriving DecidableEq

/-- Embedding of `insert_snapshot`: an upsert keyed on `(symbol, date)` —
an existing row for the same key is replaced, otherwise the row is
appended. -/
def insert_snapshot (store : List SnapshotRow) (symbol : String) (close_price : ℚ)
    (volume : ℤ) (change_percent : ℚ) (ai_commentary action_signal : String)
    (snapshot_date : ℕ) : List SnapshotRow :=
  let row : SnapshotRow :=
    { symbol := pyUpper symbol
      date := snapshot_date
      close_price := close_price
      volume := volume
      change_percent := change_percent
      ai_commentary := ai_commentary
      action_signal := action_signal }
  if store.any fun r => r.symbol == row.symbol && r.date == snapshot_date then
    store.map fun r =>
      if r.symbol == row.symbol && r.date == snapshot_date then row else r
  else store ++ [row]

/-! ## Pipeline store interactions — `src/agents/nodes.py` and
`src/agents/graph.py` -/

/-- Result of the store-relevant slice of one pipeline run. -/
structure PipelineRunResult where
  previous_thesis : Option String
  store : List ThesisRow
deriving DecidableEq

/-- The store interactions of a single pipeline run for `ticker`:
`researcher_node` reads the latest thesis (its `thesis_content` becomes
`previous_thesis` of the run state), and `strategist_node` persists the
final report plus the synthesized numeric fields through `upsert_thesis`
(with `intrinsic_value` defaulting to 0 and `sentiment_score` to 0.5). -/
def pipeline_run_store (store : List ThesisRow) (ticker final_message : String)
    (target_price stop_loss_price entry_zone_min entry_zone_max : ℚ)
    (now : ℕ) : PipelineRunResult :=
  let previous_thesis :=
    match get_latest_thesis store ticker with
    | some t => some t.thesis_content
    | none => none
  let store2 := upsert_thesis store ticker final_message 0 target_price
    stop_loss_price entry_zone_min entry_zone_max (1 / 2) now
  ⟨previous_thesis, store2⟩

/-- The initial `AgentState` built by `run_analysis` (graph.py), restricted
to the `ticker` field that claim C10 references: the input ticker is
uppercased before the pipeline runs. -/
structure AgentStateInit where
  ticker : String
  current_price : ℚ
deriving DecidableEq

/-- Embedding of the `initial_state` construction in `run_analysis`. -/
def run_analysis_initial_state (ticker : String) : AgentStateInit :=
  { ticker := pyUpper ticker, current_price := 0 }

/-! ## Shared lemmas -/

/-- Rounding to 2 decimals leaves 50 unchanged. -/
theorem round2_fifty : round2 50 = 50 := by decide

/-- Round-half-even lands within 1/2 of its argument. -/
theorem pyRound_near (q : ℚ) : |(pyRound q : ℚ) - q| ≤ 1 / 2 := by
  have h0 : (⌊q⌋ : ℚ) ≤ q := Int.floor_le q
  have h1 : q < ⌊q⌋ + 1 := Int.lt_floor_add_one q
  unfold pyRound
  split_ifs with hc hd he
  · rw [abs_le]
    push_cast at hc ⊢
    constructor <;> linarith
  · rw [abs_le]
    push_cast at hc hd ⊢
    constructor <;> linarith
  · rw [abs_le]
    push_cast at hc hd he ⊢
    constructor <;> linarith
  · rw [abs_le]
    push_cast at hc hd he ⊢
    constructor <;> linarith

/-! ## C1 — RSI on a window with zero average loss -/

/-- Claim C1 as stated is false on the code: the strictly rising 15-row
close series 10..24 fills the 14-row RSI window with zero average loss,
yet `calculate_technical_indicators` reports RSI 50 — the NaN fallback
(`rsi.iloc[-1] if not np.isnan(...) else 50` after `avg_loss.replace(0,
np.nan)`) — not 100. -/
theorem rsi_zero_avgloss_counterexample_c1 :
    15 ≤ ([10, 11, 12, 13, 14, 15, 16, 17, 18, 19, 20, 21, 22, 23, 24] : List ℚ).length
    ∧ avgLossLast [10, 11, 12, 13, 14, 15, 16, 17, 18, 19, 20, 21, 22, 23, 24] = 0
    ∧ (calculate_technical_indicators
        [10, 11, 12, 13, 14, 15, 16, 17, 18, 19, 20, 21, 22, 23, 24]).rsi = 50
    ∧ (calculate_technical_indicators
        [10, 11, 12, 13, 14, 15, 16, 17, 18, 19, 20, 21, 22, 23, 24]).rsi ≠ 100 :=
  ⟨by decide, by decide, by decide, by decide⟩

/-- C1 amended: for every close series that fills the 14-row RSI window
and whose average loss over the window is zero, the Indicator Engine
reports RSI = 50 (the NaN fallback), not 100. -/
theorem rsi_zero_avgloss_reports_50_c1 (close : List ℚ)
    (hlen : 15 ≤ close.length) (hloss : avgLossLast close = 0) :
    (calculate_technical_indicators close).rsi = 50 := by
  have h : compute_rsi_last close = none := by
    unfold compute_rsi_last
    rw [if_pos hlen, if_pos hloss]
  simp only [calculate_technical_indicators, h, Option.getD_none]
  exact round2_fifty

/-- Witness instantiating `rsi_zero_avgloss_reports_50_c1` at the strictly
rising series 10..24. -/
theorem rsi_zero_avgloss_reports_50_c1_witness :
    15 ≤ ([10, 11, 12, 13, 14, 15, 16, 17, 18, 19, 20, 21, 22, 23, 24] : List ℚ).length
    ∧ avgLossLast [10, 11, 12, 13, 14, 15, 16, 17, 18, 19, 20, 21, 22, 23, 24] = 0
    ∧ (calculate_technical_indicators
        [10, 11, 12, 13, 14, 15, 16, 17, 18, 19, 20, 21, 22, 23, 24]).rsi = 50 :=
  ⟨by decide, by decide, rsi_zero_avgloss_reports_50_c1 _ (by decide) (by decide)⟩

/-! ## C4 — trend classification -/

/-- C4: on every non-empty close series the computed trend is exactly one
of UP, DOWN, SIDEWAYS; it is UP iff MA50 > MA200 and the latest close
exceeds MA50, DOWN iff MA50 < MA200 and the latest close is below MA50
(unavailable MAs defaulting to 0), and a series shorter than 200 rows is
UP iff MA50 > 0 and the latest close exceeds MA50. -/
theorem trend_classification_c4 (close : List ℚ) (h : close ≠ []) :
    ((calculate_technical_indicators close).trend = "UP"
      ∨ (calculate_technical_indicators close).trend = "DOWN"
      ∨ (calculate_technical_indicators close).trend = "SIDEWAYS")
    ∧ ((calculate_technical_indicators close).trend = "UP"
        ↔ latestMaOr0 200 close < latestMaOr0 50 close
          ∧ latestMaOr0 50 close < close.getLastD 0)
    ∧ ((calculate_technical_indicators close).trend = "DOWN"
        ↔ latestMaOr0 50 close < latestMaOr0 200 close
          ∧ close.getLastD 0 < latestMaOr0 50 close)
    ∧ (close.length < 200 →
        ((calculate_technical_indicators close).trend = "UP"
          ↔ 0 < latestMaOr0 50 close ∧ latestMaOr0 50 close < close.getLastD 0)) := by
  have h200 : close.length < 200 → latestMaOr0 200 close = 0 := by
    intro hlt
    simp [latestMaOr0, rollingMeanLast, Nat.not_le.mpr hlt]
  simp only [calculate_technical_indicators]
  split_ifs with h1 h2
  · refine ⟨Or.inl rfl, iff_of_true rfl h1, iff_of_false (by decide) ?_, fun hlt => ?_⟩
    · exact fun hc => absurd (lt_trans h1.1 hc.1) (lt_irrefl _)
    · rw [h200 hlt] at h1
      exact iff_of_true rfl h1
  · refine ⟨Or.inr (Or.inl rfl), iff_of_false (by decide) ?_, iff_of_true rfl h2, fun hlt => ?_⟩
    · exact fun hc => absurd (lt_trans h2.1 hc.1) (lt_irrefl _)
    · rw [h200 hlt] at h2
      exact iff_of_false (by decide) fun hc => absurd (lt_trans h2.1 hc.1) (lt_irrefl _)
  · refine ⟨Or.inr (Or.inr rfl), iff_of_false (by decide) h1, iff_of_false (by decide) h2,
      fun hlt => iff_of_false (by decide) fun hc => h1 ⟨?_, hc.2⟩⟩
    rw [h200 hlt]
    exact hc.1

/-- Witness instantiating `trend_classification_c4` at the one-row series
[100] (which classifies as SIDEWAYS). -/
theorem trend_classification_c4_witness :
    ([100] : List ℚ) ≠ []
    ∧ (((calculate_technical_indicators [100]).trend = "UP"
        ∨ (calculate_technical_indicators [100]).trend = "DOWN"
        ∨ (calculate_technical_indicators [100]).trend = "SIDEWAYS")
      ∧ ((calculate_technical_indicators [100]).trend = "UP"
          ↔ latestMaOr0 200 [100] < latestMaOr0 50 [100]
            ∧ latestMaOr0 50 [100] < List.getLastD [100] 0)
      ∧ ((calculate_technical_indicators [100]).trend = "DOWN"
          ↔ latestMaOr0 50 [100] < latestMaOr0 200 [100]
            ∧ List.getLastD [100] 0 < latestMaOr0 50 [100])
      ∧ (List.length ([100] : List ℚ) < 200 →
          ((calculate_technical_indicators [100]).trend = "UP"
            ↔ 0 < latestMaOr0 50 [100] ∧ latestMaOr0 50 [100] < List.getLastD [100] 0))) :=
  ⟨by decide, trend_classification_c4 [100] (by decide)⟩

/-! ## C2 — follow-up decision rules -/

/-- Rule 1 of the code (non-zero stop-loss, close at or below it) in
claim-style form. -/
theorem rule1_iff (sl : Option ℚ) (c : ℚ) :
    (pyOrZero sl ≠ 0 ∧ c ≤ pyOrZero sl) ↔
      ((match sl with
        | some s => decide (s ≠ 0) && decide (c ≤ s)
        | none => false) = true) := by
  rcases sl with _ | s
  · simp [pyOrZero]
  · by_cases hs : s = 0 <;> simp [pyOrZero, hs]

/-- Rule 2 of the code: only `entry_zone_min` must be set and non-zero;
an absent or zero `entry_zone_max` becomes `+inf`, making the upper check
vacuous. -/
theorem rule2_iff (emin emax : Option ℚ) (c : ℚ) :
    (pyOrZero emin ≠ 0 ∧ infTruthy (pyOrInf emax) = true
      ∧ pyOrZero emin ≤ c ∧ leInfB c (pyOrInf emax) = true) ↔
      (((match emin with
          | some a => decide (a ≠ 0) && decide (a ≤ c)
          | none => false)
        && (match emax with
          | some b => decide (b = 0) || decide (c ≤ b)
          | none => true)) = true) := by
  rcases emin with _ | a <;> rcases emax with _ | b
  · simp [pyOrZero, pyOrInf, infTruthy, leInfB]
  · by_cases hb : b = 0 <;> simp [pyOrZero, pyOrInf, infTruthy, leInfB, hb]
  · by_cases ha : a = 0 <;> simp [pyOrZero, pyOrInf, infTruthy, leInfB, ha, and_comm]
  · by_cases ha : a = 0 <;> by_cases hb : b = 0 <;>
      simp [pyOrZero, pyOrInf, infTruthy, leInfB, ha, hb, and_comm, and_left_comm]

/-- Rule 3 of the code: a set, non-zero target reached by the close. -/
theorem rule3_iff (tgt : Option ℚ) (c : ℚ) :
    (infTruthy (pyOrInf tgt) = true ∧ geInfB c (pyOrInf tgt) = true) ↔
      ((match tgt with
        | some g => decide (g ≠ 0) && decide (g ≤ c)
        | none => false) = true) := by
  rcases tgt with _ | g
  · simp [pyOrInf, infTruthy, geInfB]
  · by_cases hg : g = 0 <;> simp [pyOrInf, infTruthy, geInfB, hg]

/-- Claim C2 as stated is false on the code: for a thesis with only
`entry_zone_min = 95` set (no stop-loss, no `entry_zone_max`, no target)
and close 100, the code signals BUY_MORE — the absent `entry_zone_max`
defaults to the truthy `float("inf")`, so the "both bounds set" guard of
the claim does not hold of the code — while the claimed rules yield
HOLD. -/
theorem followup_rules_counterexample_c2 :
    followup_signal (some ⟨none, some 95, none, none⟩) 100 = "BUY_MORE"
    ∧ followup_signal_claimed (some ⟨none, some 95, none, none⟩) 100 = "HOLD"
    ∧ followup_signal (some ⟨none, some 95, none, none⟩) 100
      ≠ followup_signal_claimed (some ⟨none, some 95, none, none⟩) 100 :=
  ⟨by decide, by decide, by decide⟩

/-- C2 amended: the engine applies the rules in fixed priority order with
the first match winning, where rule 1 fires iff the stop-loss is set and
non-zero and close ≤ stop-loss; rule 2 fires iff `entry_zone_min` is set
and non-zero, `entry_zone_min` ≤ close, and close ≤ `entry_zone_max`
whenever `entry_zone_max` is set and non-zero (an absent or zero upper
bound is `+inf`); rule 3 fires iff the target is set and non-zero and
close ≥ target; otherwise HOLD; and with no stored thesis the result is
HOLD.  The concrete cases of the claim all hold. -/
theorem followup_rules_amended_c2 (thesis : Option ThesisThresholds) (c : ℚ) :
    followup_signal thesis c = followup_signal_amended thesis c
    ∧ followup_signal none c = "HOLD"
    ∧ followup_signal (some ⟨some 90, some 95, some 98, some 120⟩) 90 = "SELL"
    ∧ followup_signal (some ⟨some 90, some 95, some 98, some 120⟩) 96 = "BUY_MORE"
    ∧ followup_signal (some ⟨some 90, some 95, some 98, some 120⟩) 125 = "SELL"
    ∧ followup_signal (some ⟨some 90, some 95, some 98, some 120⟩) 100 = "HOLD" := by
  refine ⟨?_, rfl, by decide, by decide, by decide, by decide⟩
  match thesis with
  | none => rfl
  | some ⟨sl, emin, emax, tgt⟩ =>
    simp only [followup_signal, followup_signal_amended]
    exact if_congr (rule1_iff sl c) rfl
      (if_congr (rule2_iff emin emax c) rfl (if_congr (rule3_iff tgt c) rfl rfl))

/-! ## C3 — strategy synthesizer formulas -/

/-- C3: for every price p ≥ 0 the synthesized strategy consists of
integral values within a half unit of p×0.92 and p×0.98 (entry range),
p×1.20 (target) and p×0.90 (stop-loss) — i.e. each is the rounding of the
respective product to the nearest integer unit — and at p = 100000 the
values are exactly [92000, 98000], 120000 and 90000. -/
theorem strategy_formulas_c3 (report : String) (fa : Option FinancialAnalysis)
    (ta : Option TechnicalSignals) (p : ℚ) (hp : 0 ≤ p) :
    (∃ e1 e2 tg st : ℤ,
      (_extract_strategy_from_report report fa ta p).entry_price_range = [(e1 : ℚ), (e2 : ℚ)]
      ∧ (_extract_strategy_from_report report fa ta p).target_price = (tg : ℚ)
      ∧ (_extract_strategy_from_report report fa ta p).stop_loss = (st : ℚ)
      ∧ |(e1 : ℚ) - p * (92 / 100)| ≤ 1 / 2
      ∧ |(e2 : ℚ) - p * (98 / 100)| ≤ 1 / 2
      ∧ |(tg : ℚ) - p * (120 / 100)| ≤ 1 / 2
      ∧ |(st : ℚ) - p * (90 / 100)| ≤ 1 / 2)
    ∧ (_extract_strategy_from_report report fa ta 100000).entry_price_range = [92000, 98000]
    ∧ (_extract_strategy_from_report report fa ta 100000).target_price = 120000
    ∧ (_extract_strategy_from_report report fa ta 100000).stop_loss = 90000 := by
  refine ⟨⟨pyRound (p * (92 / 100)), pyRound (p * (98 / 100)), pyRound (p * (120 / 100)),
    pyRound (p * (90 / 100)), rfl, rfl, rfl,
    pyRound_near _, pyRound_near _, pyRound_near _, pyRound_near _⟩, ?_, ?_, ?_⟩ <;>
    simp only [_extract_strategy_from_report, round0] <;>
    norm_num [pyRound]

/-- Witness instantiating `strategy_formulas_c3` at p = 100. -/
theorem strategy_formulas_c3_witness :
    (0 : ℚ) ≤ 100
    ∧ ((∃ e1 e2 tg st : ℤ,
      (_extract_strategy_from_report "" none none 100).entry_price_range = [(e1 : ℚ), (e2 : ℚ)]
      ∧ (_extract_strategy_from_report "" none none 100).target_price = (tg : ℚ)
      ∧ (_extract_strategy_from_report "" none none 100).stop_loss = (st : ℚ)
      ∧ |(e1 : ℚ) - 100 * (92 / 100)| ≤ 1 / 2
      ∧ |(e2 : ℚ) - 100 * (98 / 100)| ≤ 1 / 2
      ∧ |(tg : ℚ) - 100 * (120 / 100)| ≤ 1 / 2
      ∧ |(st : ℚ) - 100 * (90 / 100)| ≤ 1 / 2)
    ∧ (_extract_strategy_from_report "" none none 100000).entry_price_range = [92000, 98000]
    ∧ (_extract_strategy_from_report "" none none 100000).target_price = 120000
    ∧ (_extract_strategy_from_report "" none none 100000).stop_loss = 90000) :=
  ⟨by norm_num, strategy_formulas_c3 "" none none 100 (by norm_num)⟩

/-! ## C7 — risk/reward ordering of the synthesized strategy -/

/-- Claim C7 as stated is false on the code: at p = 10 rounding collapses
the strategy to stop-loss 9 and entry-range low 9 (0.92 × 10 = 9.2 rounds
to 9), so the strict ordering stop < entry-low fails. -/
theorem strategy_ordering_counterexample_c7 :
    (_extract_strategy_from_report "" none none 10).stop_loss = 9
    ∧ (_extract_strategy_from_report "" none none 10).entry_price_range.headD 0 = 9
    ∧ ¬((_extract_strategy_from_report "" none none 10).stop_loss
        < (_extract_strategy_from_report "" none none 10).entry_price_range.headD 0) :=
  ⟨by decide, by decide, by decide⟩

/-- C7 amended: for every current price p > 50 the synthesized strategy
satisfies stop_loss_price < entry_price_range.low < target_price (for
p ≤ 50 the gap 0.02·p between stop and entry-low can vanish under
rounding, as the p = 10 counterexample shows). -/
theorem strategy_ordering_c7 (report : String) (fa : Option FinancialAnalysis)
    (ta : Option TechnicalSignals) (p : ℚ) (hp : 50 < p) :
    (_extract_strategy_from_report report fa ta p).stop_loss
      < (_extract_strategy_from_report report fa ta p).entry_price_range.headD 0
    ∧ (_extract_strategy_from_report report fa ta p).entry_price_range.headD 0
      < (_extract_strategy_from_report report fa ta p).target_price := by
  have h1 := pyRound_near (p * (92 / 100))
  have h2 := pyRound_near (p * (120 / 100))
  have h3 := pyRound_near (p * (90 / 100))
  rw [abs_le] at h1 h2 h3
  simp only [_extract_strategy_from_report, round0, List.headD_cons]
  constructor <;> linarith [h1.1, h1.2, h2.1, h2.2, h3.1, h3.2]

/-- Witness instantiating `strategy_ordering_c7` at p = 100. -/
theorem strategy_ordering_c7_witness :
    (50 : ℚ) < 100
    ∧ ((_extract_strategy_from_report "" none none 100).stop_loss
        < (_extract_strategy_from_report "" none none 100).entry_price_range.headD 0
      ∧ (_extract_strategy_from_report "" none none 100).entry_price_range.headD 0
        < (_extract_strategy_from_report "" none none 100).target_price) :=
  ⟨by norm_num, strategy_ordering_c7 "" none none 100 (by norm_num)⟩

/-! ## C5 and C6 — structured-output parser -/

/-- Field equations extracted from a successful `buildFinancialAnalysis`. -/
theorem buildFA_fields (fam : List (String × Json)) (fa : FinancialAnalysis)
    (h : buildFinancialAnalysis fam = some fa) :
    getFloatField fam "revenue_growth" 0 = some fa.revenue_growth
    ∧ getFloatField fam "profit_growth" 0 = some fa.profit_growth
    ∧ getFloatField fam "roe" 0 = some fa.roe
    ∧ getFloatField fam "pe_ratio" 0 = some fa.pe_ratio
    ∧ getFloatField fam "debt_to_equity" 0 = some fa.debt_to_equity
    ∧ getBoolField fam "is_healthy" false = some fa.is_healthy := by
  unfold buildFinancialAnalysis at h
  simp only [Option.bind_eq_bind, Option.bind_eq_some] at h
  obtain ⟨rg, h1, pg, h2, roe, h3, pe, h4, dte, h5, ih, h6, hfa⟩ := h
  cases Option.some.inj hfa
  exact ⟨h1, h2, h3, h4, h5, h6⟩

theorem analyst_parse_failure_c5 (response_content : String) :
    (analyst_structured response_content = none →
      analyst_parse response_content = (none, none))
    ∧ ((analyst_parse response_content).1 = none ↔ (analyst_parse response_content).2 = none) := by
  cases h : analyst_structured response_content with
  | none => exact ⟨fun _ => by simp [analyst_parse, h], by simp [analyst_parse, h]⟩
  | some v =>
    refine ⟨fun hn => absurd hn (by simp), ?_⟩
    obtain ⟨fa, ta⟩ := v
    simp [analyst_parse, h]

theorem analyst_parse_failure_c5_witness :
    analyst_structured "not json" = none ∧ analyst_parse "not json" = (none, none) :=
  ⟨by decide, (analyst_parse_failure_c5 "not json").1 (by decide)⟩


theorem buildTS_fields (tam : List (String × Json)) (ta : TechnicalSignals)
    (h : buildTechnicalSignals tam = some ta) :
    getStrField tam "trend" "SIDEWAYS" = some ta.trend
    ∧ getFloatField tam "rsi" 50 = some ta.rsi
    ∧ getStrField tam "ma_alignment" "N/A" = some ta.ma_alignment
    ∧ getStrField tam "support_zone" "N/A" = some ta.support_zone
    ∧ getStrField tam "resistance_zone" "N/A" = some ta.resistance_zone := by
  unfold buildTechnicalSignals at h
  simp only [Option.bind_eq_bind, Option.bind_eq_some] at h
  obtain ⟨tr, h1, rs, h2, ma, h3, su, h4, re, h5, hta⟩ := h
  cases Option.some.inj hta
  exact ⟨h1, h2, h3, h4, h5⟩

theorem analyst_defaults_c6 (fam tam : List (String × Json)) (fa : FinancialAnalysis)
    (ta : TechnicalSignals) (hfa : buildFinancialAnalysis fam = some fa)
    (hta : buildTechnicalSignals tam = some ta) :
    analyst_parse "```json\n\x7b\"financial_analysis\":\x7b\"roe\":18\x7d,\"technical_signals\":\x7b\"trend\":\"UP\"\x7d\x7d\n```"
      = (some ⟨0, 0, 18, 0, 0, false⟩, some ⟨"UP", 50, "N/A", "N/A", "N/A"⟩)
    ∧ (dict_get fam "revenue_growth" = none → fa.revenue_growth = 0)
    ∧ (dict_get fam "profit_growth" = none → fa.profit_growth = 0)
    ∧ (dict_get fam "roe" = none → fa.roe = 0)
    ∧ (dict_get fam "pe_ratio" = none → fa.pe_ratio = 0)
    ∧ (dict_get fam "debt_to_equity" = none → fa.debt_to_equity = 0)
    ∧ (dict_get fam "is_healthy" = none → fa.is_healthy = false)
    ∧ (dict_get tam "trend" = none → ta.trend = "SIDEWAYS")
    ∧ (dict_get tam "rsi" = none → ta.rsi = 50)
    ∧ (dict_get tam "ma_alignment" = none → ta.ma_alignment = "N/A")
    ∧ (dict_get tam "support_zone" = none → ta.support_zone = "N/A")
    ∧ (dict_get tam "resistance_zone" = none → ta.resistance_zone = "N/A") := by
  obtain ⟨hf1, hf2, hf3, hf4, hf5, hf6⟩ := buildFA_fields fam fa hfa
  obtain ⟨ht1, ht2, ht3, ht4, ht5⟩ := buildTS_fields tam ta hta
  refine ⟨by decide, fun habs => ?_, fun habs => ?_, fun habs => ?_, fun habs => ?_,
    fun habs => ?_, fun habs => ?_, fun habs => ?_, fun habs => ?_, fun habs => ?_,
    fun habs => ?_, fun habs => ?_⟩
  · unfold getFloatField at hf1
    rw [habs] at hf1
    exact (Option.some.inj hf1).symm
  · unfold getFloatField at hf2
    rw [habs] at hf2
    exact (Option.some.inj hf2).symm
  · unfold getFloatField at hf3
    rw [habs] at hf3
    exact (Option.some.inj hf3).symm
  · unfold getFloatField at hf4
    rw [habs] at hf4
    exact (Option.some.inj hf4).symm
  · unfold getFloatField at hf5
    rw [habs] at hf5
    exact (Option.some.inj hf5).symm
  · unfold getBoolField at hf6
    rw [habs] at hf6
    exact (Option.some.inj hf6).symm
  · unfold getStrField at ht1
    rw [habs] at ht1
    exact (Option.some.inj ht1).symm
  · unfold getFloatField at ht2
    rw [habs] at ht2
    exact (Option.some.inj ht2).symm
  · unfold getStrField at ht3
    rw [habs] at ht3
    exact (Option.some.inj ht3).symm
  · unfold getStrField at ht4
    rw [habs] at ht4
    exact (Option.some.inj ht4).symm
  · unfold getStrField at ht5
    rw [habs] at ht5
    exact (Option.some.inj ht5).symm

theorem analyst_defaults_c6_witness :
    buildFinancialAnalysis [("roe", Json.num 18)] = some ⟨0, 0, 18, 0, 0, false⟩
    ∧ buildTechnicalSignals [("trend", Json.str "UP")] = some ⟨"UP", 50, "N/A", "N/A", "N/A"⟩
    ∧ analyst_parse "```json\n\x7b\"financial_analysis\":\x7b\"roe\":18\x7d,\"technical_signals\":\x7b\"trend\":\"UP\"\x7d\x7d\n```"
      = (some ⟨0, 0, 18, 0, 0, false⟩, some ⟨"UP", 50, "N/A", "N/A", "N/A"⟩) :=
  ⟨by decide, by decide,
    (analyst_defaults_c6 [("roe", Json.num 18)] [("trend", Json.str "UP")]
      ⟨0, 0, 18, 0, 0, false⟩ ⟨"UP", 50, "N/A", "N/A", "N/A"⟩ (by decide) (by decide)).1⟩

/-! ## C8, C9, C10 — store effects, batch isolation, symbol normalization -/

/-- The running maximum-by-`last_updated` fold either keeps its
accumulator or returns an element of the list. -/
theorem latest_fold_mem (l : List ThesisRow) (acc : Option ThesisRow) :
    l.foldl latest_step acc = acc ∨ ∃ b ∈ l, l.foldl latest_step acc = some b := by
  induction l generalizing acc with
  | nil => exact Or.inl rfl
  | cons r t ih =>
    rcases ih (latest_step acc r) with h | ⟨b, hb, h⟩
    · rw [List.foldl_cons, h]
      rcases acc with _ | b2
      · exact Or.inr ⟨r, List.mem_cons_self r t, rfl⟩
      · by_cases hlt : b2.last_updated < r.last_updated
        · simp only [latest_step]
          rw [if_pos hlt]
          exact Or.inr ⟨r, List.mem_cons_self r t, rfl⟩
        · simp only [latest_step]
          rw [if_neg hlt]
          exact Or.inl rfl
    · rw [List.foldl_cons, h]
      exact Or.inr ⟨b, List.mem_cons_of_mem r hb, rfl⟩

theorem get_latest_append_fresh (store : List ThesisRow) (row : ThesisRow) (symbol : String)
    (hsym : row.symbol = pyUpper symbol)
    (hfresh : ∀ r ∈ store, r.last_updated < row.last_updated) :
    get_latest_thesis (store ++ [row]) symbol = some row := by
  unfold get_latest_thesis
  rw [List.filter_append, List.foldl_append]
  have hrow : List.filter (fun r => r.symbol == pyUpper symbol) [row] = [row] := by
    simp [hsym]
  rw [hrow]
  rcases latest_fold_mem (store.filter fun r => r.symbol == pyUpper symbol) none with h | ⟨b, hb, h⟩
  · rw [h]
    rfl
  · rw [h]
    have hblt : b.last_updated < row.last_updated :=
      hfresh b (List.mem_of_mem_filter hb)
    simp only [List.foldl_cons, List.foldl_nil, latest_step]
    rw [if_pos hblt]


theorem pipeline_thesis_append_c8 (store : List ThesisRow) (ticker r1 r2 : String)
    (tp1 sl1 ea1 eb1 tp2 sl2 ea2 eb2 : ℚ) (t1 t2 : ℕ)
    (hfresh : ∀ row ∈ store, row.last_updated < t1) :
    (pipeline_run_store store ticker r1 tp1 sl1 ea1 eb1 t1).store.take store.length = store
    ∧ (pipeline_run_store store ticker r1 tp1 sl1 ea1 eb1 t1).store.length = store.length + 1
    ∧ (pipeline_run_store (pipeline_run_store store ticker r1 tp1 sl1 ea1 eb1 t1).store
        ticker r2 tp2 sl2 ea2 eb2 t2).previous_thesis = some r1 := by
  refine ⟨?_, ?_, ?_⟩
  · simp only [pipeline_run_store, upsert_thesis]
    exact List.take_left store _
  · simp [pipeline_run_store, upsert_thesis]
  · simp only [pipeline_run_store, upsert_thesis]
    rw [get_latest_append_fresh store _ ticker rfl hfresh]

theorem followup_batch_c9 (watchlist : List String)
    (env env2 : String → Except String (Except String PriceInfo × Option ThesisThresholds))
    (i : ℕ) (a : String) (ha : watchlist[i]? = some a) (hagree : env a = env2 a) :
    (daily_followup_job watchlist env).length = watchlist.length
    ∧ (daily_followup_job watchlist env)[i]? = (daily_followup_job watchlist env2)[i]?
    ∧ daily_followup_job watchlist3 gather3 =
      [_process_symbol "AAA" (Except.ok ⟨100, 1000, 0⟩) none,
        "⚠️ *BBB*: Không lấy được dữ liệu giá – timeout",
        _process_symbol "CCC" (Except.ok ⟨100, 1000, 0⟩) none] := by
  refine ⟨by simp [daily_followup_job], ?_, by decide⟩
  simp only [daily_followup_job, List.getElem?_map, ha, Option.map_some', hagree]

theorem uppercase_c10 (store : List ThesisRow) (snaps : List SnapshotRow)
    (s t content : String) (iv tp slp ea eb ss : ℚ) (now : ℕ)
    (cp : ℚ) (vol : ℤ) (chg : ℚ) (comm sig : String) (d : ℕ)
    (hst : pyUpper s = pyUpper t) :
    (∀ r ∈ upsert_thesis store s content iv tp slp ea eb ss now,
      r ∈ store ∨ r.symbol = pyUpper s)
    ∧ (∀ r ∈ insert_snapshot snaps s cp vol chg comm sig d,
      r ∈ snaps ∨ r.symbol = pyUpper s)
    ∧ get_latest_thesis store s = get_latest_thesis store t
    ∧ (run_analysis_initial_state s).ticker = pyUpper s := by
  refine ⟨?_, ?_, ?_, rfl⟩
  · intro r hr
    rw [upsert_thesis, List.mem_append] at hr
    rcases hr with h | h
    · exact Or.inl h
    · simp only [List.mem_singleton] at h
      subst h
      exact Or.inr rfl
  · intro r hr
    simp only [insert_snapshot] at hr
    split_ifs at hr with hx
    · rw [List.mem_map] at hr
      obtain ⟨x, hmem, hfx⟩ := hr
      split_ifs at hfx with hc
      · subst hfx
        exact Or.inr rfl
      · subst hfx
        exact Or.inl hmem
    · rw [List.mem_append] at hr
      rcases hr with h | h
      · exact Or.inl h
      · simp only [List.mem_singleton] at h
        subst h
        exact Or.inr rfl
  · unfold get_latest_thesis
    rw [hst]


/-- Witness instantiating `pipeline_thesis_append_c8` on an empty store
with two runs at times 0 and 1. -/
theorem pipeline_thesis_append_c8_witness :
    (∀ row ∈ ([] : List ThesisRow), row.last_updated < 0)
    ∧ ((pipeline_run_store [] "fpt" "report one" 0 0 0 0 0).store.take
        (List.length ([] : List ThesisRow)) = []
      ∧ (pipeline_run_store [] "fpt" "report one" 0 0 0 0 0).store.length =
        List.length ([] : List ThesisRow) + 1
      ∧ (pipeline_run_store (pipeline_run_store [] "fpt" "report one" 0 0 0 0 0).store
          "fpt" "report two" 0 0 0 0 1).previous_thesis = some "report one") :=
  ⟨by simp, pipeline_thesis_append_c8 [] "fpt" "report one" "report two"
    0 0 0 0 0 0 0 0 0 1 (by simp)⟩

/-- Witness instantiating `followup_batch_c9` at the three-ticker
watchlist, index 0. -/
theorem followup_batch_c9_witness :
    watchlist3[0]? = some "AAA"
    ∧ gather3 "AAA" = gather3 "AAA"
    ∧ ((daily_followup_job watchlist3 gather3).length = watchlist3.length
      ∧ (daily_followup_job watchlist3 gather3)[0]? = (daily_followup_job watchlist3 gather3)[0]?
      ∧ daily_followup_job watchlist3 gather3 =
        [_process_symbol "AAA" (Except.ok ⟨100, 1000, 0⟩) none,
          "⚠️ *BBB*: Không lấy được dữ liệu giá – timeout",
          _process_symbol "CCC" (Except.ok ⟨100, 1000, 0⟩) none]) :=
  ⟨by decide, rfl, followup_batch_c9 watchlist3 gather3 gather3 0 "AAA" (by decide) rfl⟩

/-- Witness instantiating `uppercase_c10` at the mixed-case tickers "fpt"
and "FpT" over empty stores. -/
theorem uppercase_c10_witness :
    pyUpper "fpt" = pyUpper "FpT"
    ∧ ((∀ r ∈ upsert_thesis [] "fpt" "c" 0 0 0 0 0 0 0,
        r ∈ ([] : List ThesisRow) ∨ r.symbol = pyUpper "fpt")
      ∧ (∀ r ∈ insert_snapshot [] "fpt" 0 0 0 "" "HOLD" 0,
        r ∈ ([] : List SnapshotRow) ∨ r.symbol = pyUpper "fpt")
      ∧ get_latest_thesis [] "fpt" = get_latest_thesis [] "FpT"
      ∧ (run_analysis_initial_state "fpt").ticker = pyUpper "fpt") :=
  ⟨by decide, uppercase_c10 [] [] "fpt" "FpT" "c" 0 0 0 0 0 0 0 0 0 0 "" "HOLD" 0 (by decide)⟩

end VnStockCopilot
